import Mathlib

/-!
Shallow embedding of the orchestration-relevant parts of vm.py (vmpy), a
Python 2 tool that backs up, imports and clones KVM/libvirt virtual machines
stored on LVM logical volumes.

Conventions of the embedding:
* Python strings are Lean `String`s; the XML transform works on `List Char`.
* Python dictionaries holding VM metadata become the `Meta` structure; the
  command-line argument object becomes `Args`, with `Option` fields standing
  for the combination of hasattr checks and truthiness tests the source uses.
* Python floats produced by `float(...)` on LVM size strings are modelled as
  exact decimals (the strings LVM emits are exactly representable); the
  theorems relate their comparison to the rational ordering.
* Exceptions become `Except Err`; distinct Python exception classes and
  distinct `ApplicationError` messages become distinct `Err` constructors.
* External commands are pure in this model; where an operation's behaviour
  depends on an external outcome (exit code, path existence, randomness,
  terminal input) that outcome is an explicit parameter.
-/

namespace Vmpy

/-- Errors raised by the embedded code. Python-level exception kinds
(NameError, IndexError, ValueError, KeyError, TypeError) get their own
constructors; ApplicationError messages raised by the tool are represented by
one constructor per distinct raise site that the claims mention. -/
inductive Err where
  | nameError            -- a local variable referenced before assignment
  | indexError           -- sequence subscript out of range
  | valueError           -- float() on a malformed string
  | keyError             -- missing dictionary key
  | pyTypeError          -- str + None concatenation
  | vgMissing            -- target volume group does not exist
  | noSpace              -- volume group lacks space
  | bridgeMissing        -- ifconfig on the target bridge failed
  | emptyMac             -- target mac address is empty
  | lvExists             -- logical volume already exists
  | snapshotNoSpace      -- no space for the snapshot volume
  | snapshotPathMissing  -- source storage path does not exist
  | commandFailed        -- an external command exited non-zero
  | removeMissing        -- lvremove target path does not exist
  | transferFailed       -- the dd pipeline or file transfer failed
  | verifyFailed         -- target meta verification failed (abstract)
  | xmlFailed            -- target xml transform failed (abstract)
  | conflictUnresolved   -- conflict resolution raised
  | vmMissing            -- named VM is not defined on the host
  | macExhausted (attempts : Nat)   -- MAC generation budget exhausted
  | missingValue (pat : List Char)  -- xml transform: value not found in source
  | emptySourceXml       -- xml transform: source xml is empty
  deriving DecidableEq, Repr

/-- Drop the final character of a string: the Python slice that vm.py applies
to size strings. On the empty string the slice yields the empty string. -/
def dropLastStr (s : String) : String := ⟨s.data.dropLast⟩

/-- Parse an unsigned decimal numeral (digits only) to a natural number. -/
def digitsToNat? (cs : List Char) : Option Nat :=
  if cs ≠ [] ∧ cs.all Char.isDigit then
    some (cs.foldl (fun n c => 10 * n + (c.toNat - 48)) 0)
  else
    none

/-- An exact decimal: the pair (n, k) denotes the number n / 10 ^ k. -/
def Dec := Nat × Nat

/-- The rational value of an exact decimal. -/
def decVal (x : Dec) : ℚ := (x.1 : ℚ) / 10 ^ x.2

/-- Strict comparison of exact decimals, by cross multiplication. -/
def decGt (x y : Dec) : Bool := decide (x.1 * 10 ^ y.2 > y.1 * 10 ^ x.2)

/-- Model of Python float() restricted to the unsigned decimal forms that LVM
emits for sizes, such as "25.00": an integer part and an optional fractional
part. Such strings are exactly representable, so the float is modelled as an
exact decimal. -/
def parseDec? (s : String) : Option Dec :=
  match s.data.splitOn '.' with
  | [a] => (digitsToNat? a).map (fun n => ((n, 0) : Dec))
  | [a, b] =>
    match digitsToNat? a, digitsToNat? b with
    | some n, some m => some ((n * 10 ^ b.length + m, b.length) : Dec)
    | _, _ => none
  | _ => none

/-- The volume-group inventory self.data with vg_info: association list from
volume-group name to its VFree string as reported by vgs --units=g. -/
def VgInfo := List (String × String)

/-- Lookup of vg_info entries by volume-group name. -/
def lookupVg (vgs : VgInfo) (vg : String) : Option String :=
  (List.find? (fun p => p.1 = vg) vgs).map (fun p => p.2)

/-- The logical-volume inventory self.data with lv_info: association list
keyed by the (volume group, logical volume) pair; the value is the LSize
string. -/
def LvInfo := List ((String × String) × String)

/-- Lookup of lv_info entries by (volume group, logical volume) key. -/
def lookupLv (lvs : LvInfo) (key : String × String) : Option String :=
  (List.find? (fun p => p.1 = key) lvs).map (fun p => p.2)

/-- True when the string is non-empty and its final character lowercases
to the letter g: the condition vm.py tests before stripping the size
suffix. -/
def sizeSuffixG (s : String) : Bool :=
  match s.data.getLast? with
  | none => false
  | some c => c.toLower = 'g'

/-- Embedding of Vmpy vg_has_space. The source reads:
  if request_size_in_g[-1].lower() == 'g': size_in_g = request_size_in_g[:-1]
  request = float(size_in_g)
  vg_free = float(self.vg_info(vg, 'VFree')[:-1])
  return vg_free > request
The subscript on an empty request string raises IndexError; when the suffix
test fails, size_in_g is never assigned and float(size_in_g) raises
NameError; vg_info raises when the volume group is absent. -/
def vg_has_space (vgs : VgInfo) (vg : String) (request_size_in_g : String) :
    Except Err Bool :=
  match request_size_in_g.data.getLast? with
  | none => .error .indexError
  | some c =>
    if c.toLower = 'g' then
      match parseDec? (dropLastStr request_size_in_g) with
      | none => .error .valueError
      | some request =>
        match lookupVg vgs vg with
        | none => .error .keyError
        | some vg_free_string =>
          match parseDec? (dropLastStr vg_free_string) with
          | none => .error .valueError
          | some vg_free => .ok (decGt vg_free request)
    else .error .nameError

/-- Embedding of Vmpy lv_create. On success it returns the list of external
commands issued (exactly the one lvcreate invocation); every error path
returns before any command is issued. The reload_environmental_info
decorator only refreshes cached inventory and is not state in this model. -/
def lv_create (lvs : LvInfo) (vgs : VgInfo)
    (lv_size lv_name vg_name : String) : Except Err (List (List String)) :=
  let vg_path := "/dev/" ++ vg_name
  if (lookupLv lvs (vg_name, lv_name)).isSome then
    .error .lvExists
  else
    match vg_has_space vgs vg_name lv_size with
    | .error e => .error e
    | .ok false => .error .noSpace
    | .ok true =>
      .ok [["lvcreate", "-L", lv_size, "-n", lv_name, vg_path]]

/-- Virtual-machine metadata dictionary as built by create_vm_meta and
consumed by load_target_meta and load_target_xml. Fields that the XML parse
can leave at None (mac, uuid, disk_file) and the logical_volume_size key that
only target metadata carries are Options. -/
structure Meta where
  name : String
  image_size : String
  compression : String
  logical_volume : String
  volume_group : String
  bridge : String
  mac : Option String
  uuid : Option String
  disk : String
  disk_file : Option String
  logical_volume_size : Option String
  deriving DecidableEq, Repr

/-- The parsed command-line arguments that load_target_meta consults. A none
models either a missing attribute (hasattr false) or a falsy value, which the
source treats alike. -/
structure Args where
  name : Option String
  volume_group : Option String
  logical_volume : Option String
  logical_volume_size : Option String
  bridge : Option String
  mac : Option String
  deriving DecidableEq, Repr

/-- Embedding of Vmpy load_target_meta: override source meta values with any
passed command-line arguments and return target meta. The fresh MAC address
that the clone branch obtains from create_mac_address is passed in as
generated_mac, since its generation is modelled separately. -/
def load_target_meta (args : Args) (generated_mac : String)
    (meta : Meta) (action : String) : Meta :=
  let meta := match args.name with
    | some n => { meta with name := n }
    | none => meta
  let meta := if action = "clone" then { meta with uuid := none } else meta
  let meta := match args.volume_group with
    | some vg => { meta with volume_group := vg }
    | none => meta
  let meta := match args.logical_volume with
    | some lv => { meta with logical_volume := lv }
    | none =>
      match args.name with
      | some n => { meta with logical_volume := n }
      | none => meta
  let meta := match args.logical_volume_size with
    | some sz => { meta with logical_volume_size := some sz }
    | none => { meta with logical_volume_size := some meta.image_size }
  let meta := match args.bridge with
    | some b => { meta with bridge := b }
    | none => meta
  let meta := match args.mac with
    | some m => { meta with mac := some m }
    | none =>
      if action = "clone" then { meta with mac := some generated_mac } else meta
  { meta with disk := "/dev/" ++ meta.volume_group ++ "/" ++ meta.logical_volume }

/-- Embedding of Vmpy verify_target_meta. The bridge check runs an external
ifconfig command whose exit status is the bridge_exists parameter. Success
means the function returns without raising; it performs no mutation. -/
def verify_target_meta (vgs : VgInfo) (bridge_exists : String → Bool)
    (meta : Meta) : Except Err Unit :=
  if (lookupVg vgs meta.volume_group).isNone then
    .error .vgMissing
  else
    match vg_has_space vgs meta.volume_group meta.image_size with
    | .error e => .error e
    | .ok false => .error .noSpace
    | .ok true =>
      if ¬ bridge_exists meta.bridge then
        .error .bridgeMissing
      else if meta.mac.getD "" = "" then
        .error .emptyMac
      else
        .ok ()

end Vmpy

namespace Vmpy

/-- Claim C5. Target-metadata resolution: every field for which no override
was supplied equals the corresponding source-metadata field, with exactly
these exceptions: the uuid is cleared for clone actions; the mac is the
freshly generated address for clone actions when not overridden; the
logical_volume defaults to the supplied new VM name when one was given; the
logical_volume_size defaults to the source image_size; and the disk storage
reference is recomputed from the final volume_group and logical_volume
values. -/
theorem load_target_meta_override_law (args : Args) (generated_mac : String)
    (meta : Meta) (action : String) :
    (args.name = none →
      (load_target_meta args generated_mac meta action).name = meta.name) ∧
    ((load_target_meta args generated_mac meta action).uuid =
      if action = "clone" then none else meta.uuid) ∧
    (args.volume_group = none →
      (load_target_meta args generated_mac meta action).volume_group =
        meta.volume_group) ∧
    (args.logical_volume = none →
      (load_target_meta args generated_mac meta action).logical_volume =
        (match args.name with
          | some n => n
          | none => meta.logical_volume)) ∧
    (args.logical_volume_size = none →
      (load_target_meta args generated_mac meta action).logical_volume_size =
        some meta.image_size) ∧
    (args.bridge = none →
      (load_target_meta args generated_mac meta action).bridge = meta.bridge) ∧
    (args.mac = none →
      (load_target_meta args generated_mac meta action).mac =
        (if action = "clone" then some generated_mac else meta.mac)) ∧
    ((load_target_meta args generated_mac meta action).disk =
      "/dev/" ++ (load_target_meta args generated_mac meta action).volume_group
        ++ "/" ++
        (load_target_meta args generated_mac meta action).logical_volume) := by
  obtain ⟨n, vg, lv, sz, br, mc⟩ := args
  cases n <;> cases vg <;> cases lv <;> cases sz <;> cases br <;> cases mc <;>
    by_cases ha : action = "clone" <;>
      simp [load_target_meta, ha]

/-- A sample source metadata record, shared by concrete witnesses. -/
def meta0 : Meta :=
  { name := "vm1", image_size := "5.00g", compression := "none",
    logical_volume := "vm1", volume_group := "vg0", bridge := "br0",
    mac := some "52:54:00:01:02:03", uuid := some "uid-1",
    disk := "/dev/vg0/vm1", disk_file := none, logical_volume_size := none }

/-- Command-line arguments with no target overrides supplied. -/
def argsNone : Args := ⟨none, none, none, none, none, none⟩

/-- Witness for claim C5 at a concrete input: a clone with no overrides. -/
theorem load_target_meta_override_law_witness :
    (load_target_meta argsNone "52:54:00:aa:bb:cc" meta0 "clone").name
        = meta0.name ∧
    (load_target_meta argsNone "52:54:00:aa:bb:cc" meta0 "clone").uuid
        = none ∧
    (load_target_meta argsNone "52:54:00:aa:bb:cc" meta0 "clone").volume_group
        = meta0.volume_group ∧
    (load_target_meta argsNone "52:54:00:aa:bb:cc" meta0
        "clone").logical_volume = meta0.logical_volume ∧
    (load_target_meta argsNone "52:54:00:aa:bb:cc" meta0
        "clone").logical_volume_size = some meta0.image_size ∧
    (load_target_meta argsNone "52:54:00:aa:bb:cc" meta0 "clone").bridge
        = meta0.bridge ∧
    (load_target_meta argsNone "52:54:00:aa:bb:cc" meta0 "clone").mac
        = some "52:54:00:aa:bb:cc" := by
  have h := load_target_meta_override_law argsNone "52:54:00:aa:bb:cc" meta0
    "clone"
  refine ⟨h.1 rfl, by simpa using h.2.1, h.2.2.1 rfl, ?_, h.2.2.2.2.1 rfl,
    h.2.2.2.2.2.1 rfl, by simpa using h.2.2.2.2.2.2.1 rfl⟩
  simpa using h.2.2.2.1 rfl

/-- The strict comparison of exact decimals agrees with the strict comparison
of their rational values. -/
theorem decGt_iff (x y : Dec) : decGt x y = true ↔ decVal x > decVal y := by
  unfold decGt decVal
  rw [decide_eq_true_iff, gt_iff_lt, gt_iff_lt,
    div_lt_div_iff₀ (by positivity) (by positivity)]
  constructor <;> intro h <;> exact_mod_cast h

/-- The volume-group inventory used by concrete witnesses: one volume group
with 2.00g free. -/
def vgs0 : VgInfo := [("vg0", "2.00g")]

/-- A concrete bridge-existence oracle for witnesses: only br0 exists. -/
def bridges0 : String → Bool := fun b => b == "br0"

/-- A target metadata record whose logical_volume_size override (3.00g)
exceeds the free space of its volume group (2.00g) while its image_size
(1.00g) does not. -/
def metaBigLv : Meta :=
  { meta0 with image_size := "1.00g", logical_volume_size := some "3.00g" }

/-- Claim C4, counterexample. Target verification succeeds on a metadata
record whose requested (overridden) logical-volume size 3.00g exceeds the
volume group's 2.00g of free space: the code compares free space against the
source image_size field, not against the possibly overridden
logical_volume_size, so the claim's success condition is violated at this
input. -/
theorem verify_target_meta_claim_counterexample :
    verify_target_meta vgs0 bridges0 metaBigLv = .ok () ∧
    metaBigLv.logical_volume_size = some "3.00g" ∧
    lookupVg vgs0 metaBigLv.volume_group = some "2.00g" ∧
    parseDec? (dropLastStr "2.00g") = some ((200, 2) : Dec) ∧
    parseDec? (dropLastStr "3.00g") = some ((300, 2) : Dec) ∧
    ¬ decVal ((200, 2) : Dec) ≥ decVal ((300, 2) : Dec) := by
  refine ⟨rfl, rfl, rfl, rfl, rfl, ?_⟩
  unfold decVal
  norm_num

/-- Claim C4, amended. Target-metadata verification succeeds exactly when the
target volume group exists in the inventory, the volume group's free space is
strictly greater than the source image_size field (the possibly overridden
logical_volume_size is not consulted), the target bridge exists, and the
target mac is non-empty; each failure raises before any mutation (the check
itself is pure in this model). -/
theorem verify_target_meta_checks (vgs : VgInfo)
    (bridge_exists : String → Bool) (meta : Meta) :
    (lookupVg vgs meta.volume_group = none →
      verify_target_meta vgs bridge_exists meta = .error .vgMissing) ∧
    (∀ vfree iq fq, lookupVg vgs meta.volume_group = some vfree →
      sizeSuffixG meta.image_size = true →
      parseDec? (dropLastStr meta.image_size) = some iq →
      parseDec? (dropLastStr vfree) = some fq →
      (verify_target_meta vgs bridge_exists meta = .ok () ↔
        (decVal fq > decVal iq ∧ bridge_exists meta.bridge = true ∧
          meta.mac.getD "" ≠ ""))) := by
  constructor
  · intro h
    unfold verify_target_meta
    simp [h]
  · intro vfree iq fq hvg hsuf hiq hfq
    unfold verify_target_meta vg_has_space
    rcases hlast : meta.image_size.data.getLast? with _ | c
    · simp [sizeSuffixG, hlast] at hsuf
    · have hg : c.toLower = 'g' := by
        simpa [sizeSuffixG, hlast] using hsuf
      rcases hb : decGt fq iq with _ | _
      · have hnot : ¬ decVal fq > decVal iq := by
          rw [← decGt_iff, hb]; simp
        simp [hvg, hg, hiq, hfq, hb, hnot]
      · have hyes : decVal fq > decVal iq := (decGt_iff fq iq).mp hb
        by_cases hbr : bridge_exists meta.bridge = true
        · by_cases hm : meta.mac.getD "" = ""
          · simp [hvg, hg, hiq, hfq, hb, hbr, hm, hyes]
          · simp [hvg, hg, hiq, hfq, hb, hbr, hm, hyes]
        · simp [hvg, hg, hiq, hfq, hb, hbr, hyes]

/-- Witness for claim C4's amended theorem at concrete inputs: a missing
volume group fails, and on vgs0 the success of verification is equivalent to
the space, bridge and mac conditions. -/
theorem verify_target_meta_checks_witness :
    verify_target_meta [] bridges0 meta0 = .error .vgMissing ∧
    (verify_target_meta vgs0 bridges0 metaBigLv = .ok () ↔
      (decVal ((200, 2) : Dec) > decVal ((100, 2) : Dec) ∧
        (bridges0 metaBigLv.bridge) = true ∧
        metaBigLv.mac.getD "" ≠ "")) :=
  ⟨(verify_target_meta_checks [] bridges0 meta0).1 rfl,
   (verify_target_meta_checks vgs0 bridges0 metaBigLv).2
      "2.00g" ((100, 2) : Dec) ((200, 2) : Dec) rfl rfl rfl rfl⟩

/-- Claim C7. The space check returns true exactly when the volume group's
free space, parsed after stripping the trailing size suffix, is strictly
greater than the requested size; logical-volume creation raises (returning no
volume-creation command) when the (volume group, logical volume) pair already
exists in the inventory or when the space check is false, and otherwise
issues exactly one lvcreate command. -/
theorem lv_create_guards (lvs : LvInfo) (vgs : VgInfo)
    (lv_size lv_name vg_name vfree : String) (r f : Dec)
    (hsuf : sizeSuffixG lv_size = true)
    (hr : parseDec? (dropLastStr lv_size) = some r)
    (hvg : lookupVg vgs vg_name = some vfree)
    (hf : parseDec? (dropLastStr vfree) = some f) :
    (vg_has_space vgs vg_name lv_size = .ok (decide (decVal f > decVal r))) ∧
    ((lookupLv lvs (vg_name, lv_name)).isSome →
      lv_create lvs vgs lv_size lv_name vg_name = .error .lvExists) ∧
    ((lookupLv lvs (vg_name, lv_name)).isSome = false →
      (¬ decVal f > decVal r →
        lv_create lvs vgs lv_size lv_name vg_name = .error .noSpace) ∧
      (decVal f > decVal r →
        lv_create lvs vgs lv_size lv_name vg_name =
          .ok [["lvcreate", "-L", lv_size, "-n", lv_name,
            "/dev/" ++ vg_name]])) := by
  have hspace : vg_has_space vgs vg_name lv_size
      = .ok (decide (decVal f > decVal r)) := by
    unfold vg_has_space
    rcases hlast : lv_size.data.getLast? with _ | c
    · simp [sizeSuffixG, hlast] at hsuf
    · have hg : c.toLower = 'g' := by
        simpa [sizeSuffixG, hlast] using hsuf
      have hd : decGt f r = decide (decVal f > decVal r) := by
        rcases hb : decGt f r with _ | _
        · have : ¬ decVal f > decVal r := by rw [← decGt_iff, hb]; simp
          simp [this]
        · have := (decGt_iff f r).mp hb
          simp [this]
      simp [hg, hr, hvg, hf, hd]
  refine ⟨hspace, ?_, ?_⟩
  · intro hex
    unfold lv_create
    simp [hex]
  · intro hex
    constructor
    · intro hlt
      unfold lv_create
      simp [hex, hspace, hlt]
    · intro hgt
      unfold lv_create
      simp [hex, hspace, hgt]

/-- Witness for claim C7 at concrete inputs: on an empty lv inventory and a
volume group with 2.00g free, requesting 1.00g issues the single lvcreate
command, and requesting 3.00g is rejected. -/
theorem lv_create_guards_witness :
    (vg_has_space vgs0 "vg0" "1.00g"
      = .ok (decide (decVal ((200, 2) : Dec) > decVal ((100, 2) : Dec)))) ∧
    (¬ decVal ((200, 2) : Dec) > decVal ((100, 2) : Dec) →
      lv_create [] vgs0 "1.00g" "lv1" "vg0" = .error .noSpace) ∧
    (decVal ((200, 2) : Dec) > decVal ((100, 2) : Dec) →
      lv_create [] vgs0 "1.00g" "lv1" "vg0" =
        .ok [["lvcreate", "-L", "1.00g", "-n", "lv1", "/dev/vg0"]]) := by
  have h := lv_create_guards [] vgs0 "1.00g" "lv1" "vg0" "2.00g"
    ((100, 2) : Dec) ((200, 2) : Dec) rfl rfl rfl rfl
  exact ⟨h.1, (h.2.2 rfl).1, (h.2.2 rfl).2⟩

/-- Claim C10, counterexample. The claim asserts that every requested-size
string not ending in the letter g yields the unbound-local-variable error;
but the empty string (which does not end in g) instead raises IndexError at
the subscript request_size_in_g[-1], before the suffix test runs. -/
theorem vg_has_space_empty_request_counterexample :
    vg_has_space vgs0 "vg0" "" = .error .indexError ∧
    sizeSuffixG "" = false ∧
    Err.indexError ≠ Err.nameError :=
  ⟨rfl, rfl, by decide⟩

/-- Claim C10, amended. For every non-empty requested-size string whose last
character does not lowercase to g, the comparison variable is never bound and
vg_has_space raises the unbound-local-variable NameError (the empty string
instead raises IndexError at the subscript); the NameError propagates to the
public interface through logical-volume creation (when the volume does not
already exist) and through target verification (when the target volume group
exists and the stored image_size lacks the suffix). -/
theorem vg_has_space_no_suffix (lvs : LvInfo) (vgs : VgInfo)
    (vg s lv_name : String) (bridge_exists : String → Bool) (meta : Meta)
    (hne : s ≠ "") (hsuf : sizeSuffixG s = false) :
    vg_has_space vgs vg s = .error .nameError ∧
    (lookupLv lvs (vg, lv_name) = none →
      lv_create lvs vgs s lv_name vg = .error .nameError) ∧
    (meta.image_size = s → (lookupVg vgs meta.volume_group).isSome →
      verify_target_meta vgs bridge_exists meta = .error .nameError) := by
  have hmain : ∀ vg' : String, vg_has_space vgs vg' s = .error .nameError := by
    intro vg'
    unfold vg_has_space
    rcases hlast : s.data.getLast? with _ | c
    · exact absurd (String.ext (List.getLast?_eq_none_iff.mp hlast)) hne
    · have hg : ¬ c.toLower = 'g' := by
        simpa [sizeSuffixG, hlast] using hsuf
      simp [hg]
  refine ⟨hmain vg, ?_, ?_⟩
  · intro hex
    unfold lv_create
    simp [hex, hmain vg]
  · intro himg hvg
    unfold verify_target_meta
    rw [himg]
    simp [Option.isNone_iff_eq_none, hmain meta.volume_group,
      Option.isSome_iff_ne_none.mp hvg]

/-- Witness for claim C10's amended theorem at the concrete input "25.00": a
size override missing its suffix raises NameError directly, through
logical-volume creation, and through target verification. -/
theorem vg_has_space_no_suffix_witness :
    vg_has_space vgs0 "vg0" "25.00" = .error .nameError ∧
    lv_create [] vgs0 "25.00" "lv1" "vg0" = .error .nameError ∧
    verify_target_meta vgs0 bridges0 { meta0 with image_size := "25.00" }
      = .error .nameError := by
  have h := vg_has_space_no_suffix [] vgs0 "vg0" "25.00" "lv1" bridges0
    { meta0 with image_size := "25.00" } (by decide) rfl
  exact ⟨h.1, h.2.1 rfl, h.2.2 rfl rfl⟩

/-- Appending on the left is cancellative for strings. -/
theorem string_append_cancel_left (s a b : String) :
    s ++ a = s ++ b ↔ a = b := by
  constructor
  · intro h
    obtain ⟨sl⟩ := s
    obtain ⟨al⟩ := a
    obtain ⟨bl⟩ := b
    have hd : sl ++ al = sl ++ bl := congrArg String.data h
    exact congrArg String.mk (List.append_cancel_left hd)
  · intro h
    rw [h]

/-- The block-device path of a (volume group, logical volume) pair, the
"/dev/vg/lv" form used throughout vm.py. -/
def lvPath (p : String × String) : String := "/dev/" ++ p.1 ++ "/" ++ p.2

/-- The (volume group, logical volume) pair created by clone_local: the
source passes target_meta name, not target_meta logical_volume, as the -n
argument of lv_create. -/
def clone_local_created_lv (tm : Meta) : String × String :=
  (tm.volume_group, tm.name)

/-- The (volume group, logical volume) pair created by clone_live: like
clone_local it passes target_meta name as the new volume's name. -/
def clone_live_created_lv (tm : Meta) : String × String :=
  (tm.volume_group, tm.name)

/-- The (volume group, logical volume) pair created by clone_remote, which
passes target_meta logical_volume. -/
def clone_remote_created_lv (tm : Meta) : String × String :=
  (tm.volume_group, tm.logical_volume)

/-- The (volume group, logical volume) pair created by import_local and
import_remote, which pass target_meta logical_volume. -/
def import_created_lv (tm : Meta) : String × String :=
  (tm.volume_group, tm.logical_volume)

/-- The dd destination that the local and live clone data transfer writes to:
target_meta disk. -/
def clone_transfer_dest (tm : Meta) : String := tm.disk

/-- Claim C9. For local and live clone, the logical volume created is named
by the target VM name, while the transfer destination is the path of the
target volume_group and logical_volume fields; hence the transfer writes to
the volume just created exactly when the logical-volume override is absent or
equal to the new VM name. Remote clone and import create the volume under
the logical_volume field. -/
theorem clone_created_lv_vs_transfer_dest (args : Args) (g : String)
    (meta : Meta) (n : String) (hn : args.name = some n) :
    (clone_transfer_dest (load_target_meta args g meta "clone") =
      lvPath ((load_target_meta args g meta "clone").volume_group,
        (load_target_meta args g meta "clone").logical_volume)) ∧
    (clone_local_created_lv (load_target_meta args g meta "clone") =
      ((load_target_meta args g meta "clone").volume_group, n)) ∧
    (clone_live_created_lv (load_target_meta args g meta "clone") =
      ((load_target_meta args g meta "clone").volume_group, n)) ∧
    (clone_transfer_dest (load_target_meta args g meta "clone") =
        lvPath (clone_local_created_lv (load_target_meta args g meta "clone"))
      ↔ (args.logical_volume = none ∨ args.logical_volume = some n)) ∧
    (clone_remote_created_lv (load_target_meta args g meta "clone") =
      ((load_target_meta args g meta "clone").volume_group,
        (load_target_meta args g meta "clone").logical_volume)) ∧
    (import_created_lv (load_target_meta args g meta "clone") =
      ((load_target_meta args g meta "clone").volume_group,
        (load_target_meta args g meta "clone").logical_volume)) := by
  have hname : (load_target_meta args g meta "clone").name = n := by
    obtain ⟨an, avg, alv, asz, abr, amc⟩ := args
    cases an <;> cases avg <;> cases alv <;> cases asz <;> cases abr <;>
      cases amc <;> simp_all [load_target_meta]
  have hlv : (load_target_meta args g meta "clone").logical_volume =
      (match args.logical_volume with
        | some lv => lv
        | none => n) := by
    obtain ⟨an, avg, alv, asz, abr, amc⟩ := args
    cases an <;> cases avg <;> cases alv <;> cases asz <;> cases abr <;>
      cases amc <;> simp_all [load_target_meta]
  have hdisk : (load_target_meta args g meta "clone").disk =
      "/dev/" ++ (load_target_meta args g meta "clone").volume_group ++ "/" ++
        (load_target_meta args g meta "clone").logical_volume :=
    (load_target_meta_override_law args g meta "clone").2.2.2.2.2.2.2
  refine ⟨?_, ?_, ?_, ?_, rfl, rfl⟩
  · simpa [clone_transfer_dest, lvPath] using hdisk
  · simp [clone_local_created_lv, hname]
  · simp [clone_live_created_lv, hname]
  · unfold clone_transfer_dest lvPath clone_local_created_lv
    rw [hdisk, hname]
    rw [string_append_cancel_left
      ("/dev/" ++ (load_target_meta args g meta "clone").volume_group ++ "/")]
    rw [hlv]
    rcases halv : args.logical_volume with _ | lv <;> simp

/-- Command-line arguments naming the new VM vm2 with no other overrides. -/
def argsVm2 : Args := ⟨some "vm2", none, none, none, none, none⟩

/-- Witness for claim C9 at a concrete input: cloning meta0 to vm2 with no
logical-volume override, the created volume is named vm2 and coincides with
the transfer destination. -/
theorem clone_created_lv_vs_transfer_dest_witness :
    (clone_local_created_lv
        (load_target_meta argsVm2 "52:54:00:aa:bb:cc" meta0 "clone") =
      ((load_target_meta argsVm2 "52:54:00:aa:bb:cc" meta0
        "clone").volume_group, "vm2")) ∧
    (clone_transfer_dest
        (load_target_meta argsVm2 "52:54:00:aa:bb:cc" meta0 "clone") =
      lvPath (clone_local_created_lv
        (load_target_meta argsVm2 "52:54:00:aa:bb:cc" meta0 "clone"))
      ↔ (argsVm2.logical_volume = none ∨
          argsVm2.logical_volume = some "vm2")) := by
  have h := clone_created_lv_vs_transfer_dest argsVm2 "52:54:00:aa:bb:cc"
    meta0 "vm2" rfl
  exact ⟨h.2.1, h.2.2.2.1⟩

/-- A virtual machine record from the fleet inventory self.data with vm_info:
the fields the conflict candidates and MAC generator consult. Fields the XML
parse can leave at None are Options. -/
structure VmRec where
  name : String
  status : String
  disk : Option String
  uuid : Option String
  mac : Option String
  deriving DecidableEq, Repr

/-- Dictionary-style attribute access on a VmRec: none models a KeyError.
The outer Option is presence of the key; the inner Option is the Python
value, which may itself be None. -/
def vmAttr? (vm : VmRec) (attr : String) : Option (Option String) :=
  if attr = "name" then some (some vm.name)
  else if attr = "status" then some (some vm.status)
  else if attr = "disk" then some vm.disk
  else if attr = "uuid" then some vm.uuid
  else if attr = "mac" then some vm.mac
  else none

/-- Embedding of Vmpy vm_info_is_unique with raise_exception False: a VM
whose record lacks the attribute is skipped; otherwise the pair must not
match any VM. -/
def vm_info_is_unique (vms : List VmRec) (attr : String)
    (value : Option String) : Bool :=
  vms.all (fun vm =>
    match vmAttr? vm attr with
    | none => true
    | some v => !(v == value))

/-- The lowercase hexadecimal digit character for a value below 16: values
below ten map into the decimal digit range, the rest into the range starting
at the letter a, exactly as the percent-x conversion renders them. -/
def hexDigitChar (n : Nat) : Char :=
  if n < 10 then Char.ofNat (48 + n) else Char.ofNat (87 + n)

/-- Python two-digit lowercase hex formatting of a byte value: for n up to
255 this is exactly what the percent-02x conversion produces. -/
def hex2 (n : Nat) : List Char := [hexDigitChar (n / 16), hexDigitChar (n % 16)]

/-- One draw of the three random octets in create_mac_address: the fourth
octet is drawn from 0x00-0x7f and the last two from 0x00-0xff. -/
structure MacSample where
  o4 : Nat
  o5 : Nat
  o6 : Nat
  deriving DecidableEq, Repr

/-- The MAC address string the source builds from one sample: the join with
colons of the percent-02x renderings of 0x52, 0x54, 0x00 and the three
sampled octets. -/
def macOfSample (s : MacSample) : String :=
  ⟨hex2 0x52 ++ [':'] ++ hex2 0x54 ++ [':'] ++ hex2 0x00 ++ [':'] ++
    hex2 s.o4 ++ [':'] ++ hex2 s.o5 ++ [':'] ++ hex2 s.o6⟩

/-- True when the character is one of the sixteen lowercase hexadecimal
digits, as produced by the percent-x conversion: a decimal digit or one of
the first six lowercase letters. -/
def isHexDigitChar (ch : Char) : Bool :=
  (48 ≤ ch.toNat && ch.toNat ≤ 57) || (97 ≤ ch.toNat && ch.toNat ≤ 102)

/-- Decidable check that a string matches the 52:54:00:XX:XX:XX pattern with
hexadecimal digits in the XX positions. -/
def isMacPattern (s : String) : Bool :=
  match s.data with
  | [a1, a2, c1, b1, b2, c2, d1, d2, c3, e1, e2, c4, f1, f2, c5, g1, g2] =>
    a1 == '5' && a2 == '2' && b1 == '5' && b2 == '4' && d1 == '0' &&
    d2 == '0' && c1 == ':' && c2 == ':' && c3 == ':' && c4 == ':' &&
    c5 == ':' && isHexDigitChar e1 && isHexDigitChar e2 &&
    isHexDigitChar f1 && isHexDigitChar f2 && isHexDigitChar g1 &&
    isHexDigitChar g2
  | _ => false

/-- The countdown loop of create_mac_address: Python iterates i over
range(attempts, 0, -1), drawing one sample per iteration, returning the
first address unique among the fleet, and raising on the iteration with
i equal to 1 after its draw failed. On success the returned pair carries the
number of samples consumed. The pattern for 0 corresponds to
range(attempts, 0, -1) being empty, which cannot happen from
create_mac_address since attempts is vm_count * 50 + 1 there. -/
def create_mac_address_loop (vms : List VmRec) (samples : Nat → MacSample)
    (attempts : Nat) : Nat → Except Err (String × Nat)
  | 0 => .error (.macExhausted attempts)
  | i + 1 =>
    let used := attempts - (i + 1)
    let address := macOfSample (samples used)
    if vm_info_is_unique vms "mac" (some address) then
      .ok (address, used + 1)
    else if i = 0 then
      .error (.macExhausted attempts)
    else
      create_mac_address_loop vms samples attempts i

/-- Embedding of Vmpy create_mac_address: the stream of random octet draws
that random.randint would produce is passed in as samples. -/
def create_mac_address (vms : List VmRec) (samples : Nat → MacSample) :
    Except Err (String × Nat) :=
  let attempts := vms.length * 50 + 1
  create_mac_address_loop vms samples attempts attempts

/-- Every in-range value renders to a hexadecimal digit character. -/
theorem hexDigitChar_isHexDigit :
    ∀ n < 16, isHexDigitChar (hexDigitChar n) = true := by
  decide

/-- A sampled address in range always matches the MAC pattern. -/
theorem isMacPattern_macOfSample (s : MacSample) (h4 : s.o4 ≤ 127)
    (h5 : s.o5 ≤ 255) (h6 : s.o6 ≤ 255) :
    isMacPattern (macOfSample s) = true := by
  obtain ⟨a, b, c⟩ := s
  replace h4 : a ≤ 127 := h4
  replace h5 : b ≤ 255 := h5
  replace h6 : c ≤ 255 := h6
  simp only [macOfSample, hex2, isMacPattern, List.cons_append,
    List.nil_append]
  simp only [Bool.and_eq_true, beq_iff_eq]
  and_intros <;>
    first
      | rfl
      | trivial
      | (apply hexDigitChar_isHexDigit; omega)

/-- Uniqueness of a mac value against the fleet, unfolded. -/
theorem vm_info_is_unique_mac (vms : List VmRec) (addr : String) :
    vm_info_is_unique vms "mac" (some addr) = true ↔
      ∀ vm ∈ vms, vm.mac ≠ some addr := by
  unfold vm_info_is_unique
  rw [List.all_eq_true]
  constructor
  · intro h vm hvm
    have := h vm hvm
    simpa [vmAttr?] using this
  · intro h vm hvm
    simpa [vmAttr?] using h vm hvm

/-- Invariant of the countdown loop used to prove claim C8. -/
theorem create_mac_address_loop_spec (vms : List VmRec)
    (samples : Nat → MacSample) (attempts : Nat)
    (hrange : ∀ k, (samples k).o4 ≤ 127 ∧ (samples k).o5 ≤ 255 ∧
      (samples k).o6 ≤ 255) :
    ∀ i, i ≤ attempts →
      (∀ addr used,
        create_mac_address_loop vms samples attempts i = .ok (addr, used) →
        used ≤ attempts ∧ isMacPattern addr = true ∧
          ∀ vm ∈ vms, vm.mac ≠ some addr) ∧
      ((∀ k, attempts - i ≤ k → k < attempts →
          vm_info_is_unique vms "mac" (some (macOfSample (samples k)))
            = false) →
        create_mac_address_loop vms samples attempts i
          = .error (.macExhausted attempts)) := by
  intro i
  induction i with
  | zero =>
    intro _
    constructor
    · intro addr used h
      simp [create_mac_address_loop] at h
    · intro _
      rfl
  | succ j ih =>
    intro hle
    have hused : attempts - (j + 1) < attempts := by omega
    rcases hu : vm_info_is_unique vms "mac"
        (some (macOfSample (samples (attempts - (j + 1))))) with _ | _
    · constructor
      · intro addr used h
        rcases hj : decide (j = 0) with _ | _
        · have hj' : ¬ j = 0 := of_decide_eq_false hj
          rw [create_mac_address_loop] at h
          simp only [hu, if_false, hj', if_neg hj'] at h
          exact ((ih (by omega)).1 addr used h)
        · have hj' : j = 0 := of_decide_eq_true hj
          subst hj'
          rw [create_mac_address_loop] at h
          simp [hu] at h
      · intro hall
        rcases hj : decide (j = 0) with _ | _
        · have hj' : ¬ j = 0 := of_decide_eq_false hj
          rw [create_mac_address_loop]
          simp only [hu, if_false, hj', if_neg hj']
          exact (ih (by omega)).2 (fun k hk1 hk2 => hall k (by omega) hk2)
        · have hj' : j = 0 := of_decide_eq_true hj
          subst hj'
          rw [create_mac_address_loop]
          simp [hu]
    · constructor
      · intro addr used h
        rw [create_mac_address_loop] at h
        simp only [hu, if_true, Except.ok.injEq, Prod.mk.injEq] at h
        obtain ⟨ha, hu'⟩ := h
        subst ha
        subst hu'
        refine ⟨by omega, ?_, ?_⟩
        · exact isMacPattern_macOfSample _ (hrange _).1 (hrange _).2.1
            (hrange _).2.2
        · exact (vm_info_is_unique_mac vms _).mp hu
      · intro hall
        have := hall (attempts - (j + 1)) (by omega) (by omega)
        rw [hu] at this
        exact absurd this (by simp)

/-- Claim C8. MAC generation performs at most vm_count * 50 + 1 sampling
attempts (the success value carries the number consumed and it is bounded by
the budget); every address returned matches 52:54:00:XX:XX:XX with
hexadecimal octets and differs from the MAC of every fleet VM; and when no
attempt within the budget yields an unused address the call fails reporting
the attempt count. -/
theorem create_mac_address_spec (vms : List VmRec)
    (samples : Nat → MacSample)
    (hrange : ∀ k, (samples k).o4 ≤ 127 ∧ (samples k).o5 ≤ 255 ∧
      (samples k).o6 ≤ 255) :
    (∀ addr used, create_mac_address vms samples = .ok (addr, used) →
      used ≤ vms.length * 50 + 1 ∧ isMacPattern addr = true ∧
        ∀ vm ∈ vms, vm.mac ≠ some addr) ∧
    ((∀ k, k < vms.length * 50 + 1 →
        vm_info_is_unique vms "mac" (some (macOfSample (samples k)))
          = false) →
      create_mac_address vms samples
        = .error (.macExhausted (vms.length * 50 + 1))) := by
  have h := create_mac_address_loop_spec vms samples (vms.length * 50 + 1)
    hrange (vms.length * 50 + 1) (le_refl _)
  exact ⟨h.1, fun hall => h.2 (fun k hk1 hk2 => hall k hk2)⟩

/-- A one-VM fleet used by concrete witnesses. -/
def fleet1 : List VmRec :=
  [{ name := "vm1", status := "running", disk := some "/dev/vg0/vm1",
     uuid := some "uid-1", mac := some "52:54:00:01:02:03" }]

/-- A constant in-range sample stream. -/
def samples1 : Nat → MacSample := fun _ => ⟨42, 187, 204⟩

/-- Witness for claim C8 at a concrete input: on a one-VM fleet the constant
sample stream yields the address 52:54:00:2a:bb:cc on the first draw. -/
theorem create_mac_address_spec_witness :
    1 ≤ fleet1.length * 50 + 1 ∧
    isMacPattern "52:54:00:2a:bb:cc" = true ∧
    ∀ vm ∈ fleet1, vm.mac ≠ some "52:54:00:2a:bb:cc" := by
  have h := (create_mac_address_spec fleet1 samples1
    (fun k => by simp [samples1])).1 "52:54:00:2a:bb:cc" 1 rfl
  exact h

/-- In CPython 2, comparing a str with an int never raises: values of
mismatched types are ordered by type name, and since int sorts before str,
every string compares greater than every integer. vm_resolve_conflicts
computes prompt as self.args.output_level > 0 where output_level is the
string produced by argparse, so this comparison is always true. -/
def py2StrGtInt (_s : String) (_n : Int) : Bool := true

/-- Embedding of Vmpy vm_info_search: names of fleet VMs whose attribute
equals the value. The candidates only use the four keys name, disk, uuid and
mac, which every parsed record carries, so the KeyError path is not
reachable here; the list(set(...)) applied to the result only deduplicates names,
which are unique fleet-wide. -/
def vm_info_search (vms : List VmRec) (attr : String) (value : Option String) :
    List String :=
  (vms.filter (fun vm => (vmAttr? vm attr).getD none == value)).map
    (fun vm => vm.name)

/-- Embedding of Vmpy vm_remove: virsh undefine plus removal of the VM's
storage volume; on the fleet inventory this deletes the record. -/
def vm_remove (vms : List VmRec) (nm : String) : List VmRec :=
  vms.filter (fun vm => vm.name ≠ nm)

/-- Result of a conflict-resolution run. -/
inductive ResolveOutcome where
  | finished                  -- fell through the loops with no unresolved conflict
  | conflictError (attr : String) (value : Option String) (vm : String)
      -- the raise in the non-interactive branch
  | cleanExit                 -- sys.exit(0) on a cancel answer
  | eofError                  -- raw_input invoked with no input available
  | outOfFuel                 -- exceeded the modelling recursion budget
  deriving DecidableEq, Repr

/-- Control position inside vm_resolve_conflicts: the outer loop over the
remaining candidate suffix, or the inner loop over the matches of the
current candidate. -/
inductive ResolvePos where
  | outer (cands : List (String × Option String))
  | inner (cand : String × Option String)
      (rest : List (String × Option String)) (names : List String)

/-- Embedding of Vmpy vm_resolve_conflicts as a step function over the
control position, threading the fleet and the stream of raw_input answers.
For each candidate the matches are computed once from the current fleet;
with overwrite set every match is removed and the loop continues without
prompting; otherwise, when prompt is false the conflict error is raised;
otherwise one answer is consumed: a y or yes answer removes the match, and
then (because the source's else binds to the cancel test, not to the y
test) any non-cancel answer recursively re-enters resolution on the
candidate suffix starting at the current candidate, after which the inner
loop continues with the remaining matches. Fuel bounds the user-driven
recursion, which the source does not bound. -/
def resolveRun (overwrite prompt : Bool) :
    Nat → ResolvePos → List VmRec → List String →
      ResolveOutcome × List VmRec × List String
  | 0, _, vms, ins => (.outOfFuel, vms, ins)
  | _ + 1, .outer [], vms, ins => (.finished, vms, ins)
  | fuel + 1, .outer (cand :: rest), vms, ins =>
    resolveRun overwrite prompt fuel
      (.inner cand rest (vm_info_search vms cand.1 cand.2)) vms ins
  | fuel + 1, .inner _ rest [], vms, ins =>
    resolveRun overwrite prompt fuel (.outer rest) vms ins
  | fuel + 1, .inner cand rest (nm :: more), vms, ins =>
    if overwrite then
      resolveRun overwrite prompt fuel (.inner cand rest more)
        (vm_remove vms nm) ins
    else if prompt = false then
      (.conflictError cand.1 cand.2 nm, vms, ins)
    else
      match ins with
      | [] => (.eofError, vms, ins)
      | ans :: ins1 =>
        let vms1 := if ans.toLower = "y" ∨ ans.toLower = "yes" then
          vm_remove vms nm else vms
        if ans.toLower = "quit" ∨ ans.toLower = "cancel" then
          (.cleanExit, vms1, ins1)
        else
          match resolveRun overwrite prompt fuel (.outer (cand :: rest))
              vms1 ins1 with
          | (.finished, vms2, ins2) =>
            resolveRun overwrite prompt fuel (.inner cand rest more) vms2 ins2
          | halted => halted

/-- Embedding of Vmpy vm_resolve_conflicts: prompt is the Python 2
comparison of the output_level string with the integer 0. -/
def vm_resolve_conflicts (overwrite : Bool) (output_level : String)
    (fuel : Nat) (vms : List VmRec)
    (inputs : List String) (cands : List (String × Option String)) :
    ResolveOutcome × List VmRec × List String :=
  resolveRun overwrite (py2StrGtInt output_level 0) fuel (.outer cands) vms
    inputs

/-- Claim C3, theorem at the failing input. In a headless run the
output_level string is "0", yet prompt = ("0" > 0) is true under Python 2
comparison semantics, so with overwrite unset and a fleet VM matching the
candidate (name, vm1) the code reaches raw_input — which at EOF dies with
EOFError — instead of raising the conflict error that the claim (and the
function's own docstring) require; the overwrite branch, by contrast, does
remove the match and finish without consuming any input. -/
theorem vm_resolve_conflicts_headless_prompts :
    py2StrGtInt "0" 0 = true ∧
    vm_resolve_conflicts false "0" 9 fleet1 []
        [("name", some "vm1")] = (.eofError, fleet1, []) ∧
    (∀ a v nm, vm_resolve_conflicts false "0" 9 fleet1 []
        [("name", some "vm1")] ≠ (.conflictError a v nm, fleet1, [])) ∧
    vm_resolve_conflicts true "0" 9 fleet1 []
        [("name", some "vm1")] = (.finished, [], []) := by
  refine ⟨rfl, rfl, ?_, rfl⟩
  intro a v nm h
  rw [show vm_resolve_conflicts false "0" 9 fleet1 [] [("name", some "vm1")]
      = (.eofError, fleet1, []) from rfl] at h
  exact absurd (congrArg Prod.fst h) (by simp)

/-!
Effect-level model for the backup and clone_live orchestration (claims C1
and C2). The state tracks the source VM's run-state and the number of
snapshot volumes matching the source's snapshot-naming convention. External
command outcomes (exit codes, path-existence tests, space checks) are
collected in CmdEnv; external file and pipeline operations do not touch this
state.
-/

/-- Run-state of the source VM as reported by virsh list. -/
inductive VmStatus where
  | running
  | paused
  | shutOff
  deriving DecidableEq, Repr

/-- The host state that backup and clone_live mutate: the source VM's
run-state and the number of existing snapshots named by the source's
snapshot-naming convention. -/
structure HostState where
  vmStatus : VmStatus
  snapshotCount : Nat
  deriving DecidableEq, Repr

/-- Outcomes of the external commands and checks that backup and clone_live
depend on. Commands run with boolean=True never raise: a failed suspend or
resume only leaves the run-state unchanged. -/
structure CmdEnv where
  vmExists : Bool         -- the backup target VM is defined on the host
  verifyOk : Bool         -- verify_target_meta raises no error (clone_live)
  xmlOk : Bool            -- load_target_xml raises no error (clone_live)
  suspendOk : Bool        -- exit status of virsh suspend
  resumeOk : Bool         -- exit status of virsh resume
  snapshotSpaceOk : Bool  -- vg_has_space for the snapshot size
  snapshotPathOk : Bool   -- os.path.exists on the source storage path
  snapshotCmdOk : Bool    -- exit status of lvcreate --snapshot
  conflictsOk : Bool      -- vm_resolve_conflicts raises no error (clone_live)
  lvCreateOk : Bool       -- lv_create for the target volume (clone_live)
  importOk : Bool         -- the lv_import dd pipeline (clone_live)
  transferOk : Bool       -- the local or remote backup body (backup)
  removeCmdOk : Bool      -- exit status of lvremove
  deriving DecidableEq, Repr

/-- Embedding of Vmpy vm_suspend: virsh suspend with boolean result; on
success the running VM becomes paused, on failure nothing changes and no
exception is raised. -/
def vm_suspend (env : CmdEnv) (st : HostState) : HostState :=
  if env.suspendOk then { st with vmStatus := .paused } else st

/-- Embedding of Vmpy vm_resume: virsh resume with boolean result; it moves
a paused VM back to running when the command succeeds (virsh resume of a VM
that is not paused fails, which the boolean call swallows). -/
def vm_resume (env : CmdEnv) (st : HostState) : HostState :=
  if env.resumeOk ∧ st.vmStatus = .paused then
    { st with vmStatus := .running }
  else st

/-- Embedding of Vmpy lv_create_snapshot at the effect level: the space
check, the path-existence check, then the lvcreate --snapshot command; on
success one snapshot with the source's naming convention exists. -/
def lv_create_snapshot (env : CmdEnv) (st : HostState) :
    Except Err HostState :=
  if ¬ env.snapshotSpaceOk then .error .snapshotNoSpace
  else if ¬ env.snapshotPathOk then .error .snapshotPathMissing
  else if ¬ env.snapshotCmdOk then .error .commandFailed
  else .ok { st with snapshotCount := st.snapshotCount + 1 }

/-- Embedding of Vmpy lv_remove applied to the snapshot path: raises when
the path does not exist (no snapshot), raises when lvremove exits non-zero,
and otherwise removes the snapshot. -/
def lv_remove_snapshot (env : CmdEnv) (st : HostState) :
    Except Err HostState :=
  if st.snapshotCount = 0 then .error .removeMissing
  else if ¬ env.removeCmdOk then .error .commandFailed
  else .ok { st with snapshotCount := st.snapshotCount - 1 }

/-- Embedding of Vmpy backup at the effect level, preserving its control
flow: verify the VM exists; cache the run-state; suspend when running;
create the snapshot (an error here propagates with no cleanup); resume when
it had been running; then run the local or remote backup body inside
try/except/finally whose finally removes the snapshot — an exception raised
by the removal replaces the body's outcome, as in Python. -/
def backup (env : CmdEnv) (st : HostState) :
    Except Err Unit × HostState :=
  if ¬ env.vmExists then (.error .vmMissing, st)
  else
    let initial := st.vmStatus
    let st1 := if initial = .running then vm_suspend env st else st
    match lv_create_snapshot env st1 with
    | .error e => (.error e, st1)
    | .ok st2 =>
      let st3 := if initial = .running then vm_resume env st2 else st2
      let bodyResult : Except Err Unit :=
        if env.transferOk then .ok () else .error .transferFailed
      match lv_remove_snapshot env st3 with
      | .error e => (.error e, st3)
      | .ok st4 => (bodyResult, st4)

/-- Embedding of Vmpy clone_live at the effect level, preserving its control
flow: meta loading and verification and the XML transform run first; then
the suspend/snapshot/resume bracket; then conflict resolution — outside any
cleanup scope; then the volume creation and snapshot copy inside try/finally
whose finally removes the snapshot, an error there replacing the body's
outcome. -/
def clone_live (env : CmdEnv) (st : HostState) :
    Except Err Unit × HostState :=
  if ¬ env.verifyOk then (.error .verifyFailed, st)
  else if ¬ env.xmlOk then (.error .xmlFailed, st)
  else
    let initial := st.vmStatus
    let st1 := if initial = .running then vm_suspend env st else st
    match lv_create_snapshot env st1 with
    | .error e => (.error e, st1)
    | .ok st2 =>
      let st3 := if initial = .running then vm_resume env st2 else st2
      if ¬ env.conflictsOk then (.error .conflictUnresolved, st3)
      else
        let bodyResult : Except Err Unit :=
          if ¬ env.lvCreateOk then .error .lvExists
          else if ¬ env.importOk then .error .transferFailed
          else .ok ()
        match lv_remove_snapshot env st3 with
        | .error e => (.error e, st3)
        | .ok st4 => (bodyResult, st4)

/-- An environment in which every external command succeeds. -/
def envAllOk : CmdEnv :=
  { vmExists := true, verifyOk := true, xmlOk := true, suspendOk := true,
    resumeOk := true, snapshotSpaceOk := true, snapshotPathOk := true,
    snapshotCmdOk := true, conflictsOk := true, lvCreateOk := true,
    importOk := true, transferOk := true, removeCmdOk := true }

/-- Claim C1, counterexample. In a live clone whose conflict resolution
raises (everything else succeeding), the operation terminates with the
conflict error while the snapshot created from the source volume is still
present: conflict resolution runs after snapshot creation and outside the
try/finally that removes the snapshot, so the claim fails for the live-clone
variant. -/
theorem clone_live_conflict_leaves_snapshot :
    clone_live { envAllOk with conflictsOk := false }
        { vmStatus := .running, snapshotCount := 0 }
      = (.error .conflictUnresolved,
         { vmStatus := .running, snapshotCount := 1 }) ∧
    ({ vmStatus := .running, snapshotCount := 1 } : HostState).snapshotCount
      ≠ 0 := by
  exact ⟨rfl, by decide⟩

/-- Claim C1, amended. Whenever the lvremove command itself succeeds, a
backup never leaves a snapshot behind on any path — success, failed
transfer, or a failure of snapshot creation itself — and a live clone never
leaves a snapshot behind provided conflict resolution raises no error (a
conflict-resolution failure occurs after snapshot creation but outside the
cleanup scope and leaves the snapshot, as the counterexample shows); volume
creation and data transfer failures inside the guarded block always trigger
removal. -/
theorem backup_clone_live_snapshot_hygiene (env : CmdEnv) (st : HostState)
    (h0 : st.snapshotCount = 0) (hrm : env.removeCmdOk = true) :
    (backup env st).2.snapshotCount = 0 ∧
    (env.conflictsOk = true → (clone_live env st).2.snapshotCount = 0) := by
  obtain ⟨v1, v2, v3, v4, v5, v6, v7, v8, v9, v10, v11, v12, v13⟩ := env
  obtain ⟨status, n⟩ := st
  replace h0 : n = 0 := h0
  subst h0
  replace hrm : v13 = true := hrm
  subst hrm
  constructor
  · cases v1 <;> cases v4 <;> cases v5 <;> cases v6 <;> cases v7 <;>
      cases v8 <;> cases v12 <;> cases status <;> rfl
  · intro hc
    replace hc : v9 = true := hc
    subst hc
    cases v2 <;> cases v3 <;> cases v4 <;> cases v5 <;> cases v6 <;>
      cases v7 <;> cases v8 <;> cases v10 <;> cases v11 <;> cases status <;>
      rfl

/-- Witness for claim C1's amended theorem: with every command succeeding
and no pre-existing snapshot, both operations end with zero snapshots. -/
theorem backup_clone_live_snapshot_hygiene_witness :
    (backup envAllOk { vmStatus := .running, snapshotCount := 0
      }).2.snapshotCount = 0 ∧
    (clone_live envAllOk { vmStatus := .running, snapshotCount := 0
      }).2.snapshotCount = 0 := by
  have h := backup_clone_live_snapshot_hygiene envAllOk
    { vmStatus := .running, snapshotCount := 0 } rfl rfl
  exact ⟨h.1, h.2 rfl⟩

/-- Claim C2, counterexample. When the snapshot-creation step of a backup
fails (here: no space for the snapshot volume) on a running VM, the
operation terminates with that error while the VM is still paused: the
resume is sequenced after snapshot creation with no cleanup, so a failure of
the snapshot-creation step itself leaves the VM suspended. -/
theorem backup_snapshot_failure_leaves_paused :
    backup { envAllOk with snapshotSpaceOk := false }
        { vmStatus := .running, snapshotCount := 0 }
      = (.error .snapshotNoSpace,
         { vmStatus := .paused, snapshotCount := 0 }) ∧
    (VmStatus.paused ≠ VmStatus.running) := by
  exact ⟨rfl, by decide⟩

/-- Claim C2, amended. If the source VM is running before a backup or live
clone, and snapshot creation and the resume command succeed, the VM is
running again when the operation terminates, on success and on every
failure of the later steps (conflict resolution, volume creation, data
transfer, snapshot removal); when snapshot creation itself fails the resume
never runs and a suspended VM stays suspended, as the counterexample
shows. -/
theorem backup_clone_live_resume_symmetry (env : CmdEnv) (st : HostState)
    (hrun : st.vmStatus = .running)
    (hs1 : env.snapshotSpaceOk = true) (hs2 : env.snapshotPathOk = true)
    (hs3 : env.snapshotCmdOk = true) (hres : env.resumeOk = true) :
    (backup env st).2.vmStatus = .running ∧
    (clone_live env st).2.vmStatus = .running := by
  obtain ⟨v1, v2, v3, v4, v5, v6, v7, v8, v9, v10, v11, v12, v13⟩ := env
  obtain ⟨status, n⟩ := st
  replace hrun : status = .running := hrun
  subst hrun
  replace hs1 : v6 = true := hs1
  replace hs2 : v7 = true := hs2
  replace hs3 : v8 = true := hs3
  replace hres : v5 = true := hres
  subst hs1
  subst hs2
  subst hs3
  subst hres
  constructor
  · cases v1 <;> cases v4 <;> cases v12 <;> cases v13 <;> rfl
  · cases v2 <;> cases v3 <;> cases v4 <;> cases v9 <;> cases v10 <;>
      cases v11 <;> cases v13 <;> rfl

/-- Witness for claim C2's amended theorem: with every command succeeding, a
running VM is running again after backup and after live clone. -/
theorem backup_clone_live_resume_symmetry_witness :
    (backup envAllOk { vmStatus := .running, snapshotCount := 0
      }).2.vmStatus = .running ∧
    (clone_live envAllOk { vmStatus := .running, snapshotCount := 0
      }).2.vmStatus = .running :=
  backup_clone_live_resume_symmetry envAllOk
    { vmStatus := .running, snapshotCount := 0 } rfl rfl rfl rfl rfl

/-!
The definition transform load_target_xml (claim C6). Documents are lists
of characters; Python str.find becomes containsSub, str.replace becomes
pyReplace (leftmost, non-overlapping, all occurrences), and str.count
becomes countSub. The recursions are driven by a character-count fuel so
that they are structural and evaluate inside the kernel; the fuel passed by
the wrappers always suffices.
-/

/-- True when pat occurs as a contiguous sublist of s: the Python test
s.find(pat) != -1. -/
def containsSub (s pat : List Char) : Bool :=
  (List.range (s.length + 1)).any (fun i => pat.isPrefixOf (s.drop i))

/-- True when no occurrence of pat starts at a position below n in s. -/
def noOccurBefore (s pat : List Char) (n : Nat) : Bool :=
  (List.range n).all (fun i => !(pat.isPrefixOf (s.drop i)))

/-- Fuel-driven core of pyReplace: scan left to right; at the leftmost match
emit the replacement and continue after the matched text, otherwise keep the
character. The zero-fuel case is unreachable when fuel covers the length. -/
def pyReplaceGo (pat rep : List Char) : Nat → List Char → List Char
  | 0, s => s
  | fuel + 1, s =>
    match s with
    | [] => []
    | c :: cs =>
      if pat ≠ [] ∧ pat.isPrefixOf (c :: cs) = true then
        rep ++ pyReplaceGo pat rep fuel (List.drop pat.length (c :: cs))
      else
        c :: pyReplaceGo pat rep fuel cs

/-- Python str.replace(pat, rep): replaces every non-overlapping occurrence,
scanning from the left. (For the empty pattern Python would interleave the
replacement between characters; every pattern this transform uses is
non-empty.) -/
def pyReplace (pat rep s : List Char) : List Char :=
  pyReplaceGo pat rep s.length s

/-- Fuel-driven core of countSub. -/
def countSubGo (pat : List Char) : Nat → List Char → Nat
  | 0, _ => 0
  | fuel + 1, s =>
    match s with
    | [] => 0
    | c :: cs =>
      if pat ≠ [] ∧ pat.isPrefixOf (c :: cs) = true then
        countSubGo pat fuel (List.drop pat.length (c :: cs)) + 1
      else
        countSubGo pat fuel cs

/-- Python str.count(pat): the number of non-overlapping occurrences,
counted from the left. -/
def countSub (pat s : List Char) : Nat := countSubGo pat s.length s

/-- The apostrophe character, as used by the attribute quoting in libvirt
definition documents. -/
def quoteChar : Char := Char.ofNat 39

/-- The exact substring the transform builds for the name element:
the concatenation of the opening name tag, the value and the closing
name tag. -/
def namePat (n : String) : List Char :=
  '<' :: 'n' :: 'a' :: 'm' :: 'e' :: '>' ::
    (n.data ++ ('<' :: '/' :: 'n' :: 'a' :: 'm' :: 'e' :: '>' :: []))

/-- The exact substring for the storage-source element: source dev attribute
with the quoted device path, self-closed. -/
def diskPat (d : String) : List Char :=
  '<' :: 's' :: 'o' :: 'u' :: 'r' :: 'c' :: 'e' :: ' ' :: 'd' :: 'e' ::
    'v' :: '=' :: quoteChar :: (d.data ++ (quoteChar :: '/' :: '>' :: []))

/-- The exact substring for the MAC-address element: mac address attribute
with the quoted address, self-closed. -/
def macPat (m : String) : List Char :=
  '<' :: 'm' :: 'a' :: 'c' :: ' ' :: 'a' :: 'd' :: 'd' :: 'r' :: 'e' ::
    's' :: 's' :: '=' :: quoteChar :: (m.data ++ (quoteChar :: '/' :: '>' :: []))

/-- The exact substring for the bridge element: source bridge attribute with
the quoted bridge name, self-closed. -/
def bridgePat (b : String) : List Char :=
  '<' :: 's' :: 'o' :: 'u' :: 'r' :: 'c' :: 'e' :: ' ' :: 'b' :: 'r' ::
    'i' :: 'd' :: 'g' :: 'e' :: '=' :: quoteChar ::
    (b.data ++ (quoteChar :: '/' :: '>' :: []))

/-- The exact substring for the unique-identifier element. -/
def uuidPat (u : String) : List Char :=
  '<' :: 'u' :: 'u' :: 'i' :: 'd' :: '>' ::
    (u.data ++ ('<' :: '/' :: 'u' :: 'u' :: 'i' :: 'd' :: '>' :: []))

/-- One substitution of load_target_xml: verify the exact source substring
is present, else fail naming it; then replace every occurrence. -/
def xmlStep (doc src tgt : List Char) : Except Err (List Char) :=
  if containsSub doc src then .ok (pyReplace src tgt doc)
  else .error (.missingValue src)

/-- Embedding of Vmpy load_target_xml: reject an empty source document, then
substitute name, storage source, MAC address and bridge in that order, each
guarded by a presence check on the document as transformed so far; for clone
actions additionally replace the unique-identifier element by the empty
string. Building a pattern from a missing (None) mac or uuid would raise a
TypeError in Python, modelled by the pyTypeError branches. -/
def load_target_xml (source_xml : List Char) (source_meta target_meta : Meta)
    (action : String) : Except Err (List Char) :=
  if source_xml = [] then .error .emptySourceXml
  else
    match xmlStep source_xml (namePat source_meta.name)
        (namePat target_meta.name) with
    | .error e => .error e
    | .ok d1 =>
      match xmlStep d1 (diskPat source_meta.disk)
          (diskPat target_meta.disk) with
      | .error e => .error e
      | .ok d2 =>
        match source_meta.mac, target_meta.mac with
        | none, _ => .error .pyTypeError
        | some _, none => .error .pyTypeError
        | some smac, some tmac =>
          match xmlStep d2 (macPat smac) (macPat tmac) with
          | .error e => .error e
          | .ok d3 =>
            match xmlStep d3 (bridgePat source_meta.bridge)
                (bridgePat target_meta.bridge) with
            | .error e => .error e
            | .ok d4 =>
              if action = "clone" then
                match source_meta.uuid with
                | none => .error .pyTypeError
                | some u => xmlStep d4 (uuidPat u) []
              else .ok d4

/-- The fuel of pyReplaceGo is irrelevant as long as it covers the length of
the scanned list. -/
theorem pyReplaceGo_congr (pat rep : List Char) :
    ∀ fuel fuel' s, s.length ≤ fuel → s.length ≤ fuel' →
      pyReplaceGo pat rep fuel s = pyReplaceGo pat rep fuel' s := by
  intro fuel
  induction fuel with
  | zero =>
    intro fuel' s h h'
    have hs : s = [] := List.length_eq_zero.mp (Nat.le_zero.mp h)
    subst hs
    cases fuel' <;> rfl
  | succ f ih =>
    intro fuel' s h h'
    cases fuel' with
    | zero =>
      have hs : s = [] := List.length_eq_zero.mp (Nat.le_zero.mp h')
      subst hs
      rfl
    | succ f' =>
      cases s with
      | nil => rfl
      | cons c cs =>
        simp only [List.length_cons] at h h'
        simp only [pyReplaceGo]
        split
        · next hcond =>
          have hp : 1 ≤ pat.length := by
            rcases hpat : pat with _ | ⟨x, xs⟩
            · exact absurd (by rw [hpat] at hcond; exact hcond.1 rfl) not_false
            · simp
          congr 1
          apply ih
          · simp only [List.length_drop, List.length_cons]
            omega
          · simp only [List.length_drop, List.length_cons]
            omega
        · congr 1
          apply ih
          · omega
          · omega

/-- A scan step that does not match at the head keeps the head character. -/
theorem pyReplace_cons_skip (pat rep : List Char) (c : Char) (cs : List Char)
    (h : pat.isPrefixOf (c :: cs) = false) :
    pyReplace pat rep (c :: cs) = c :: pyReplace pat rep cs := by
  unfold pyReplace
  simp only [List.length_cons, pyReplaceGo, h]
  simp

/-- Replacing in a list that starts with the pattern emits the replacement
and continues after the matched text. -/
theorem pyReplace_append_pat (pat rep b : List Char) (hne : pat ≠ []) :
    pyReplace pat rep (pat ++ b) = rep ++ pyReplace pat rep b := by
  rcases pat with _ | ⟨p, ps⟩
  · exact absurd rfl hne
  · have hpre : (p :: ps).isPrefixOf ((p :: ps) ++ b) = true :=
      List.isPrefixOf_iff_prefix.mpr (List.prefix_append _ _)
    unfold pyReplace
    rw [show (p :: ps) ++ b = p :: (ps ++ b) from rfl]
    simp only [List.length_cons, pyReplaceGo]
    rw [if_pos ⟨List.cons_ne_nil p ps, by
      rw [show p :: (ps ++ b) = (p :: ps) ++ b from rfl]; exact hpre⟩]
    congr 1
    rw [List.drop_succ_cons, List.drop_left]
    apply pyReplaceGo_congr
    · simp only [List.length_append]
      omega
    · exact Nat.le_refl _

/-- A document that decomposes around the pattern contains it. -/
theorem contains_of_decomp (a pat b : List Char) :
    containsSub (a ++ (pat ++ b)) pat = true := by
  unfold containsSub
  rw [List.any_eq_true]
  refine ⟨a.length, ?_, ?_⟩
  · rw [List.mem_range, List.length_append]
    omega
  · rw [List.drop_left]
    exact List.isPrefixOf_iff_prefix.mpr (List.prefix_append _ _)

/-- A document containing the pattern decomposes around it. -/
theorem contains_decomp (s pat : List Char) (h : containsSub s pat = true) :
    ∃ a b, s = a ++ (pat ++ b) := by
  unfold containsSub at h
  rw [List.any_eq_true] at h
  obtain ⟨i, _, hpre⟩ := h
  obtain ⟨t, ht⟩ := List.isPrefixOf_iff_prefix.mp hpre
  refine ⟨s.take i, t, ?_⟩
  conv_lhs => rw [← List.take_append_drop i s]
  rw [← ht]

/-- Containment is monotone under extending the document on the left. -/
theorem contains_cons_of_contains (c : Char) (cs pat : List Char)
    (h : containsSub cs pat = true) : containsSub (c :: cs) pat = true := by
  obtain ⟨a, b, rfl⟩ := contains_decomp cs pat h
  exact contains_of_decomp (c :: a) pat b

/-- When a non-empty document does not contain the pattern, the pattern is
not a prefix and the tail does not contain it either. -/
theorem not_contains_cons (c : Char) (cs pat : List Char)
    (h : containsSub (c :: cs) pat = false) :
    pat.isPrefixOf (c :: cs) = false ∧ containsSub cs pat = false := by
  constructor
  · by_contra hh
    simp only [Bool.not_eq_false] at hh
    obtain ⟨t, ht⟩ := List.isPrefixOf_iff_prefix.mp hh
    have hc : containsSub (c :: cs) pat = true := by
      rw [show c :: cs = [] ++ (pat ++ t) by
        simp only [List.nil_append]; exact ht.symm]
      exact contains_of_decomp [] pat t
    rw [hc] at h
    cases h
  · by_contra hh
    simp only [Bool.not_eq_false] at hh
    have := contains_cons_of_contains c cs pat hh
    rw [this] at h
    cases h

/-- Replacing a pattern that does not occur leaves the document unchanged. -/
theorem pyReplace_of_not_contains (pat rep : List Char) :
    ∀ s, containsSub s pat = false → pyReplace pat rep s = s := by
  intro s
  induction s with
  | nil => intro _; rfl
  | cons c cs ih =>
    intro h
    obtain ⟨h1, h2⟩ := not_contains_cons c cs pat h
    rw [pyReplace_cons_skip pat rep c cs h1, ih h2]

/-- Replacement passes over a prefix in which no occurrence starts. -/
theorem pyReplace_append_left (pat rep : List Char) :
    ∀ a t : List Char, noOccurBefore (a ++ t) pat a.length = true →
      pyReplace pat rep (a ++ t) = a ++ pyReplace pat rep t := by
  intro a
  induction a with
  | nil => intro t _; rfl
  | cons c as ih =>
    intro t h
    have h0 : pat.isPrefixOf ((c :: as) ++ t) = false := by
      have := List.all_eq_true.mp h 0
        (List.mem_range.mpr (by simp))
      simpa using this
    have hshift : noOccurBefore (as ++ t) pat as.length = true := by
      rw [noOccurBefore, List.all_eq_true]
      intro i hi
      rw [List.mem_range] at hi
      have hi1 : i + 1 ∈ List.range (c :: as).length := by
        rw [List.mem_range, List.length_cons]
        omega
      have := List.all_eq_true.mp h (i + 1) hi1
      simpa using this
    rw [show (c :: as) ++ t = c :: (as ++ t) from rfl,
      pyReplace_cons_skip pat rep c (as ++ t) h0, ih t hshift]
    rfl

/-- One exact substitution: when the document decomposes around a unique,
designated occurrence of the non-empty source pattern (no occurrence starts
in the prefix, the suffix does not contain it), the step succeeds and
replaces exactly the designated occurrence. -/
theorem xmlStep_exact (a pat b rep : List Char) (hne : pat ≠ [])
    (h1 : noOccurBefore (a ++ (pat ++ b)) pat a.length = true)
    (h2 : containsSub b pat = false) :
    xmlStep (a ++ (pat ++ b)) pat rep = .ok (a ++ (rep ++ b)) := by
  unfold xmlStep
  rw [if_pos (contains_of_decomp a pat b),
    pyReplace_append_left pat rep a (pat ++ b) h1,
    pyReplace_append_pat pat rep b hne,
    pyReplace_of_not_contains pat rep b h2]

/-!
Layout of a definition document around its five designated field
occurrences: filler p0 through p5 surrounds the name, storage-source, MAC,
bridge and uuid patterns in the order the transform substitutes them. The
xmlTail defs are the parts to the right of each designated occurrence in the
source document; the xmlPre defs are the parts to the left of each
designated occurrence after the earlier substitutions have been applied; the
xmlDoc defs are the intermediate documents between substitutions.
-/

/-- Source-document part right of the bridge occurrence. -/
def xmlTail4 (p4 p5 : List Char) (su : String) : List Char :=
  p4 ++ (uuidPat su ++ p5)

/-- Source-document part right of the MAC occurrence. -/
def xmlTail3 (p3 p4 p5 : List Char) (sm : Meta) (su : String) : List Char :=
  p3 ++ (bridgePat sm.bridge ++ xmlTail4 p4 p5 su)

/-- Source-document part right of the storage-source occurrence. -/
def xmlTail2 (p2 p3 p4 p5 : List Char) (sm : Meta) (smac su : String) :
    List Char :=
  p2 ++ (macPat smac ++ xmlTail3 p3 p4 p5 sm su)

/-- Source-document part right of the name occurrence. -/
def xmlTail1 (p1 p2 p3 p4 p5 : List Char) (sm : Meta) (smac su : String) :
    List Char :=
  p1 ++ (diskPat sm.disk ++ xmlTail2 p2 p3 p4 p5 sm smac su)

/-- The whole source document in designated-occurrence layout. -/
def xmlSrcDoc (p0 p1 p2 p3 p4 p5 : List Char) (sm : Meta) (smac su : String) :
    List Char :=
  p0 ++ (namePat sm.name ++ xmlTail1 p1 p2 p3 p4 p5 sm smac su)

/-- Document part left of the storage-source occurrence after the name
substitution. -/
def xmlPre2 (p0 p1 : List Char) (tm : Meta) : List Char :=
  p0 ++ namePat tm.name ++ p1

/-- Document part left of the MAC occurrence after two substitutions. -/
def xmlPre3 (p0 p1 p2 : List Char) (tm : Meta) : List Char :=
  xmlPre2 p0 p1 tm ++ diskPat tm.disk ++ p2

/-- Document part left of the bridge occurrence after three substitutions. -/
def xmlPre4 (p0 p1 p2 p3 : List Char) (tm : Meta) (tmac : String) :
    List Char :=
  xmlPre3 p0 p1 p2 tm ++ macPat tmac ++ p3

/-- Document part left of the uuid occurrence after four substitutions. -/
def xmlPre5 (p0 p1 p2 p3 p4 : List Char) (tm : Meta) (tmac : String) :
    List Char :=
  xmlPre4 p0 p1 p2 p3 tm tmac ++ bridgePat tm.bridge ++ p4

/-- The document after the name substitution. -/
def xmlDoc1 (p0 p1 p2 p3 p4 p5 : List Char) (sm tm : Meta) (smac su : String) :
    List Char :=
  xmlPre2 p0 p1 tm ++ (diskPat sm.disk ++ xmlTail2 p2 p3 p4 p5 sm smac su)

/-- The document after the storage-source substitution. -/
def xmlDoc2 (p0 p1 p2 p3 p4 p5 : List Char) (sm tm : Meta) (smac su : String) :
    List Char :=
  xmlPre3 p0 p1 p2 tm ++ (macPat smac ++ xmlTail3 p3 p4 p5 sm su)

/-- The document after the MAC substitution. -/
def xmlDoc3 (p0 p1 p2 p3 p4 p5 : List Char) (sm tm : Meta)
    (tmac su : String) : List Char :=
  xmlPre4 p0 p1 p2 p3 tm tmac ++ (bridgePat sm.bridge ++ xmlTail4 p4 p5 su)

/-- The document after the bridge substitution, uuid still present. -/
def xmlDoc4 (p0 p1 p2 p3 p4 p5 : List Char) (tm : Meta)
    (tmac su : String) : List Char :=
  xmlPre5 p0 p1 p2 p3 p4 tm tmac ++ (uuidPat su ++ p5)

/-- Claim C6, amended. For a clone transform on a document in
designated-occurrence layout, where at each of the five steps the source
pattern's only occurrence in the current document is the designated one (no
occurrence starts in the part to its left and the part to its right does not
contain it), the transform succeeds and returns exactly the document with
each designated occurrence replaced in place by the corresponding target
pattern and the uuid element removed entirely; and whenever the name
field's exact source substring is absent from a (non-empty) document the
transform fails with the error naming that substring, the same guard
protecting each later substitution against the document as transformed so
far. -/
theorem load_target_xml_exact (sm tm : Meta) (smac tmac su : String)
    (p0 p1 p2 p3 p4 p5 : List Char)
    (hsmac : sm.mac = some smac) (htmac : tm.mac = some tmac)
    (hsu : sm.uuid = some su)
    (H1 : noOccurBefore (xmlSrcDoc p0 p1 p2 p3 p4 p5 sm smac su)
      (namePat sm.name) p0.length = true)
    (H1b : containsSub (xmlTail1 p1 p2 p3 p4 p5 sm smac su)
      (namePat sm.name) = false)
    (H2 : noOccurBefore (xmlDoc1 p0 p1 p2 p3 p4 p5 sm tm smac su)
      (diskPat sm.disk) (xmlPre2 p0 p1 tm).length = true)
    (H2b : containsSub (xmlTail2 p2 p3 p4 p5 sm smac su)
      (diskPat sm.disk) = false)
    (H3 : noOccurBefore (xmlDoc2 p0 p1 p2 p3 p4 p5 sm tm smac su)
      (macPat smac) (xmlPre3 p0 p1 p2 tm).length = true)
    (H3b : containsSub (xmlTail3 p3 p4 p5 sm su) (macPat smac) = false)
    (H4 : noOccurBefore (xmlDoc3 p0 p1 p2 p3 p4 p5 sm tm tmac su)
      (bridgePat sm.bridge) (xmlPre4 p0 p1 p2 p3 tm tmac).length = true)
    (H4b : containsSub (xmlTail4 p4 p5 su) (bridgePat sm.bridge) = false)
    (H5 : noOccurBefore (xmlDoc4 p0 p1 p2 p3 p4 p5 tm tmac su)
      (uuidPat su) (xmlPre5 p0 p1 p2 p3 p4 tm tmac).length = true)
    (H5b : containsSub p5 (uuidPat su) = false) :
    load_target_xml (xmlSrcDoc p0 p1 p2 p3 p4 p5 sm smac su) sm tm "clone"
      = .ok (xmlPre5 p0 p1 p2 p3 p4 tm tmac ++ p5) ∧
    (∀ d : List Char, d ≠ [] →
      containsSub d (namePat sm.name) = false →
      load_target_xml d sm tm "clone"
        = .error (.missingValue (namePat sm.name))) := by
  constructor
  · have hdoc : ¬ xmlSrcDoc p0 p1 p2 p3 p4 p5 sm smac su = [] := by
      simp [xmlSrcDoc, namePat]
    have e1 : xmlStep (xmlSrcDoc p0 p1 p2 p3 p4 p5 sm smac su)
        (namePat sm.name) (namePat tm.name)
        = .ok (p0 ++ (namePat tm.name ++
            xmlTail1 p1 p2 p3 p4 p5 sm smac su)) :=
      xmlStep_exact p0 _ _ _ (by simp [namePat]) H1 H1b
    have conv1 : p0 ++ (namePat tm.name ++
        xmlTail1 p1 p2 p3 p4 p5 sm smac su)
        = xmlDoc1 p0 p1 p2 p3 p4 p5 sm tm smac su := by
      simp [xmlDoc1, xmlPre2, xmlTail1, List.append_assoc]
    have e2 : xmlStep (xmlDoc1 p0 p1 p2 p3 p4 p5 sm tm smac su)
        (diskPat sm.disk) (diskPat tm.disk)
        = .ok (xmlPre2 p0 p1 tm ++ (diskPat tm.disk ++
            xmlTail2 p2 p3 p4 p5 sm smac su)) :=
      xmlStep_exact (xmlPre2 p0 p1 tm) _ _ _ (by simp [diskPat]) H2 H2b
    have conv2 : xmlPre2 p0 p1 tm ++ (diskPat tm.disk ++
        xmlTail2 p2 p3 p4 p5 sm smac su)
        = xmlDoc2 p0 p1 p2 p3 p4 p5 sm tm smac su := by
      simp [xmlDoc2, xmlPre3, xmlTail2, List.append_assoc]
    have e3 : xmlStep (xmlDoc2 p0 p1 p2 p3 p4 p5 sm tm smac su)
        (macPat smac) (macPat tmac)
        = .ok (xmlPre3 p0 p1 p2 tm ++ (macPat tmac ++
            xmlTail3 p3 p4 p5 sm su)) :=
      xmlStep_exact (xmlPre3 p0 p1 p2 tm) _ _ _ (by simp [macPat]) H3 H3b
    have conv3 : xmlPre3 p0 p1 p2 tm ++ (macPat tmac ++
        xmlTail3 p3 p4 p5 sm su)
        = xmlDoc3 p0 p1 p2 p3 p4 p5 sm tm tmac su := by
      simp [xmlDoc3, xmlPre4, xmlTail3, List.append_assoc]
    have e4 : xmlStep (xmlDoc3 p0 p1 p2 p3 p4 p5 sm tm tmac su)
        (bridgePat sm.bridge) (bridgePat tm.bridge)
        = .ok (xmlPre4 p0 p1 p2 p3 tm tmac ++ (bridgePat tm.bridge ++
            xmlTail4 p4 p5 su)) :=
      xmlStep_exact (xmlPre4 p0 p1 p2 p3 tm tmac) _ _ _
        (by simp [bridgePat]) H4 H4b
    have conv4 : xmlPre4 p0 p1 p2 p3 tm tmac ++ (bridgePat tm.bridge ++
        xmlTail4 p4 p5 su)
        = xmlDoc4 p0 p1 p2 p3 p4 p5 tm tmac su := by
      simp [xmlDoc4, xmlPre5, xmlTail4, List.append_assoc]
    have e5 : xmlStep (xmlDoc4 p0 p1 p2 p3 p4 p5 tm tmac su)
        (uuidPat su) []
        = .ok (xmlPre5 p0 p1 p2 p3 p4 tm tmac ++ ([] ++ p5)) :=
      xmlStep_exact (xmlPre5 p0 p1 p2 p3 p4 tm tmac) _ _ _
        (by simp [uuidPat]) H5 H5b
    unfold load_target_xml
    rw [if_neg hdoc, e1]
    simp only []
    rw [conv1, e2]
    simp only []
    rw [conv2, hsmac, htmac]
    simp only []
    rw [e3]
    simp only []
    rw [conv3, e4]
    simp only []
    rw [conv4]
    simp only [if_true]
    rw [hsu]
    simp only []
    rw [e5]
    simp
  · intro d hne hnc
    simp [load_target_xml, xmlStep, hne, hnc]

/-- A source metadata record for the definition-transform counterexample:
name a, storage d, MAC m, bridge b, uuid u. -/
def smInj : Meta :=
  { name := "a", image_size := "5.00g", compression := "none",
    logical_volume := "a", volume_group := "vg0", bridge := "b",
    mac := some "m", uuid := some "u", disk := "d", disk_file := none,
    logical_volume_size := none }

/-- The target metadata for the counterexample: name c, storage d2, MAC m2,
bridge b2, uuid cleared. -/
def tmInj : Meta :=
  { smInj with
      name := "c", disk := "d2", mac := some "m2", bridge := "b2",
      uuid := none }

/-- A source document containing exactly one occurrence of each source field
pattern — and, legitimately under that precondition, one occurrence of the
target name element as trailing content. -/
def docInj : List Char :=
  namePat "a" ++ diskPat "d" ++ macPat "m" ++ bridgePat "b" ++ uuidPat "u"
    ++ namePat "c"

/-- The transform's output on docInj. -/
def resInj : List Char :=
  namePat "c" ++ diskPat "d2" ++ macPat "m2" ++ bridgePat "b2" ++ namePat "c"

set_option maxRecDepth 40000 in
/-- Claim C6, counterexample. The document docInj contains exactly one
occurrence of each source field pattern, satisfying the claim's
precondition, yet the clone transform returns a document with two
occurrences of the target name value: the claim's precondition does not
bound occurrences of target values already present in the source
document. -/
theorem load_target_xml_claim_counterexample :
    (countSub (namePat smInj.name) docInj = 1 ∧
     countSub (diskPat smInj.disk) docInj = 1 ∧
     countSub (macPat "m") docInj = 1 ∧
     countSub (bridgePat smInj.bridge) docInj = 1 ∧
     countSub (uuidPat "u") docInj = 1) ∧
    load_target_xml docInj smInj tmInj "clone" = .ok resInj ∧
    countSub (namePat tmInj.name) resInj = 2 :=
  ⟨⟨rfl, rfl, rfl, rfl, rfl⟩, rfl, rfl⟩

set_option maxRecDepth 40000 in
/-- Witness for claim C6's amended theorem: with empty filler, the five
designated patterns of smInj transform into the four target patterns of
tmInj with the uuid element removed, and a document lacking the name
pattern is rejected with the error naming it. -/
theorem load_target_xml_exact_witness :
    load_target_xml (xmlSrcDoc [] [] [] [] [] [] smInj "m" "u") smInj tmInj
        "clone" = .ok (xmlPre5 [] [] [] [] [] tmInj "m2" ++ []) ∧
    load_target_xml ('x' :: []) smInj tmInj "clone"
      = .error (.missingValue (namePat smInj.name)) := by
  have h := load_target_xml_exact smInj tmInj "m" "m2" "u" [] [] [] [] [] []
    rfl rfl rfl rfl rfl rfl rfl rfl rfl rfl rfl rfl rfl
  exact ⟨h.1, h.2 ('x' :: []) (by simp) rfl⟩

end Vmpy
